import Mathlib

/- Verification of the discovery-memory subsystem of the migration-agent
repository: a shallow embedding of the data model (models.py), the durable
state store (storage.py), the parallel scan coordinator and validation
helpers (helpers.py), the repository analyzer entry point (analyzer.py),
and the dependency bookkeeping of the plugin (plugin.py), together with
theorems settling the frozen claims about them.

Modelling conventions: Python dicts become association lists in insertion
order where assignment to an existing key replaces the value in place;
datetimes become natural numbers; free-form insight values become strings
(the claims only inspect keys and emptiness); file bytes become strings. -/

/- ===== Data model, from src/plugins/discovery_memory/models.py ===== -/

/-- TechnologyStack (models.py): detected frameworks of a repository. -/
structure TechnologyStack where
  frameworks : List String := []
deriving DecidableEq, Repr

/-- DeepAnalysis (models.py): phase-2 analysis data. -/
structure DeepAnalysis where
  markdown_summary : String := ""
  deep_insights : List (String × String) := []
  analysis_timestamp : Nat := 0
deriving DecidableEq, Repr

/-- RepoMetadata (models.py): per-repository record, with the pydantic field
defaults of the source. Insight values are modelled as strings. -/
structure RepoMetadata where
  name : String
  path : String
  discovery_phase_status : String := "No insights added. Assigned to no components."
  total_files : Nat := 0
  file_counts : List (String × Nat) := []
  total_lines : Nat := 0
  technology_stack : TechnologyStack := {}
  has_readme : Bool := false
  config_files : List String := []
  insights : List (String × String) := []
  assigned_components : List String := []
  deep_analysis : Option DeepAnalysis := none
deriving DecidableEq, Repr

/-- RepoMetadata.update_discovery_status (models.py lines 101-115): derive the
status text from whether insights and component assignments are present,
embedding the joined component list in the text when components exist. -/
def RepoMetadata.updateDiscoveryStatus (r : RepoMetadata) : RepoMetadata :=
  let has_insights := !r.insights.isEmpty
  let has_components := !r.assigned_components.isEmpty
  if has_insights && has_components then
    { r with discovery_phase_status :=
        "Insights added. Assigned to components: " ++
          String.intercalate ", " r.assigned_components ++ "." }
  else if has_insights && !has_components then
    { r with discovery_phase_status := "Insights added. Assigned to no components." }
  else if !has_insights && has_components then
    { r with discovery_phase_status :=
        "No insights added. Assigned to components: " ++
          String.intercalate ", " r.assigned_components ++ "." }
  else
    { r with discovery_phase_status := "No insights added. Assigned to no components." }

/-- ComponentData (models.py): a logical component. -/
structure ComponentData where
  name : String
  purpose : String := ""
  rationale : String := ""
  repositories : List String := []
  created_at : Nat := 0
deriving DecidableEq, Repr

/-- DependencyRecord (models.py): a dependency edge between two repositories. -/
structure DependencyRecord where
  source_repo : String
  target_repo : String
  dependency_type : String
  description : String := ""
  evidence : List String := []
  created_at : Nat := 0
deriving DecidableEq, Repr

/-- AnalysisState (models.py): the root aggregate owned by the storage layer. -/
structure AnalysisState where
  repositories : List (String × RepoMetadata) := []
  components : List (String × ComponentData) := []
  dependency_records : List DependencyRecord := []
  total_repositories : Nat := 0
  repositories_with_insights : Nat := 0
  analysis_started : Option Nat := none
  analysis_completed : Option Nat := none
  last_updated : Nat := 0
  base_repos_path : String
deriving DecidableEq, Repr

/- ===== Association-list operations modelling Python dict access ===== -/

/-- Lookup of a key in an insertion-ordered association list (dict access). -/
def lookupA {α : Type} : List (String × α) → String → Option α
  | [], _ => none
  | (k', v) :: rest, k => if k' = k then some v else lookupA rest k

/-- Apply a function to the value stored at a key, keeping its position
(mutation of the object held in a Python dict). Absent keys: no change. -/
def updateA {α : Type} : List (String × α) → String → (α → α) → List (String × α)
  | [], _, _ => []
  | (k', v) :: rest, k, f =>
    if k' = k then (k', f v) :: rest else (k', v) :: updateA rest k f

/-- Dict assignment: replace the value in place when the key exists, else
append a new entry at the end (Python dict insertion order). -/
def insertA {α : Type} : List (String × α) → String → α → List (String × α)
  | [], k, v => [(k, v)]
  | (k', v') :: rest, k, v =>
    if k' = k then (k', v) :: rest else (k', v') :: insertA rest k v

theorem lookupA_updateA_self {α : Type} (l : List (String × α)) (k : String) (f : α → α) :
    lookupA (updateA l k f) k = (lookupA l k).map f := by
  induction l with
  | nil => rfl
  | cons hd tl ih =>
    obtain ⟨k', v⟩ := hd
    by_cases h : k' = k <;> simp [updateA, lookupA, h, ih]

theorem lookupA_updateA_ne {α : Type} (l : List (String × α)) (k k' : String) (f : α → α)
    (h : k ≠ k') : lookupA (updateA l k f) k' = lookupA l k' := by
  induction l with
  | nil => rfl
  | cons hd tl ih =>
    obtain ⟨k₀, v⟩ := hd
    by_cases h0 : k₀ = k
    · subst h0
      simp [updateA, lookupA, h]
    · simp only [updateA, if_neg h0]
      by_cases h1 : k₀ = k' <;> simp [lookupA, h1, ih]

theorem isSome_lookupA_updateA {α : Type} (l : List (String × α)) (k k' : String) (f : α → α) :
    (lookupA (updateA l k f) k').isSome = (lookupA l k').isSome := by
  by_cases h : k = k'
  · subst h
    rw [lookupA_updateA_self]
    cases lookupA l k <;> rfl
  · rw [lookupA_updateA_ne l k k' f h]

theorem lookupA_mem {α : Type} (l : List (String × α)) (k : String) (v : α)
    (h : lookupA l k = some v) : (k, v) ∈ l := by
  induction l with
  | nil => simp [lookupA] at h
  | cons hd tl ih =>
    obtain ⟨k', v'⟩ := hd
    by_cases h0 : k' = k
    · subst h0
      simp [lookupA] at h
      subst h
      exact List.mem_cons_self _ _
    · simp [lookupA, h0] at h
      exact List.mem_cons_of_mem _ (ih h)

/-- updateDiscoveryStatus writes only the status field: the component list
is unchanged. -/
theorem updateDiscoveryStatus_assigned_components (r : RepoMetadata) :
    (r.updateDiscoveryStatus).assigned_components = r.assigned_components := by
  cases hi : r.insights.isEmpty <;> cases hc : r.assigned_components.isEmpty <;>
    simp [RepoMetadata.updateDiscoveryStatus, hi, hc]

/-- updateDiscoveryStatus writes only the status field: insights unchanged. -/
theorem updateDiscoveryStatus_insights (r : RepoMetadata) :
    (r.updateDiscoveryStatus).insights = r.insights := by
  cases hi : r.insights.isEmpty <;> cases hc : r.assigned_components.isEmpty <;>
    simp [RepoMetadata.updateDiscoveryStatus, hi, hc]

/-- The status text written by update_discovery_status, as a function of the
insight emptiness and the assigned component list. -/
def statusText (insightsEmpty : Bool) (assigned : List String) : String :=
  if !insightsEmpty && !assigned.isEmpty then
    "Insights added. Assigned to components: " ++ String.intercalate ", " assigned ++ "."
  else if !insightsEmpty && assigned.isEmpty then
    "Insights added. Assigned to no components."
  else if insightsEmpty && !assigned.isEmpty then
    "No insights added. Assigned to components: " ++ String.intercalate ", " assigned ++ "."
  else
    "No insights added. Assigned to no components."

/-- The status written by update_discovery_status is statusText applied to the
insight emptiness and the component list. -/
theorem updateDiscoveryStatus_status (r : RepoMetadata) :
    (r.updateDiscoveryStatus).discovery_phase_status =
      statusText r.insights.isEmpty r.assigned_components := by
  cases hi : r.insights.isEmpty <;> cases hc : r.assigned_components.isEmpty <;>
    simp [RepoMetadata.updateDiscoveryStatus, statusText, hi, hc]

/- ===== Claim C5: status text derivation ===== -/

/-- Repository used in the C5 counterexample, assigned to component a. -/
def c5RepoA : RepoMetadata :=
  { name := "r1", path := "r1", insights := [("purpose", "x")],
    assigned_components := ["alpha"] }

/-- Repository used in the C5 counterexample, assigned to component b. -/
def c5RepoB : RepoMetadata :=
  { name := "r2", path := "r2", insights := [("purpose", "x")],
    assigned_components := ["beta"] }

/-- C5 counterexample: the derived status text is not a pure function of the
pair (insights non-empty, assigned_components non-empty) alone, and it is not
restricted to four strings: two repositories agreeing on both booleans but
assigned to differently named components get different status texts, because
update_discovery_status embeds the joined component list in the text. -/
theorem c5_counterexample :
    c5RepoA.insights.isEmpty = c5RepoB.insights.isEmpty ∧
    c5RepoA.assigned_components.isEmpty = c5RepoB.assigned_components.isEmpty ∧
    (c5RepoA.updateDiscoveryStatus).discovery_phase_status ≠
      (c5RepoB.updateDiscoveryStatus).discovery_phase_status := by
  refine ⟨rfl, rfl, ?_⟩
  decide

/-- C5 amended: the derived status text is a pure function of the pair
(insights non-empty, the assigned_components list): two repositories agreeing
on those produce identical texts, and recomputing the status with unchanged
inputs yields identical text (update_discovery_status is idempotent). -/
theorem c5_status_pure_function (r₁ r₂ : RepoMetadata)
    (hins : r₁.insights.isEmpty = r₂.insights.isEmpty)
    (hcomp : r₁.assigned_components = r₂.assigned_components) :
    (r₁.updateDiscoveryStatus).discovery_phase_status =
      (r₂.updateDiscoveryStatus).discovery_phase_status ∧
    r₁.updateDiscoveryStatus.updateDiscoveryStatus = r₁.updateDiscoveryStatus := by
  constructor
  · rw [updateDiscoveryStatus_status, updateDiscoveryStatus_status, hins, hcomp]
  · cases hi : r₁.insights.isEmpty <;> cases hc : r₁.assigned_components.isEmpty <;>
      simp [RepoMetadata.updateDiscoveryStatus, hi, hc]

/-- Witness for c5_status_pure_function at two concrete repositories with the
same insight emptiness and the same component list. -/
theorem c5_status_pure_function_witness :
    (c5RepoA.updateDiscoveryStatus).discovery_phase_status =
      ({ c5RepoB with assigned_components := ["alpha"] }
        : RepoMetadata).updateDiscoveryStatus.discovery_phase_status ∧
    c5RepoA.updateDiscoveryStatus.updateDiscoveryStatus = c5RepoA.updateDiscoveryStatus :=
  c5_status_pure_function c5RepoA { c5RepoB with assigned_components := ["alpha"] }
    rfl rfl

/- ===== Claim C3: the bidirectional assignment operation =====
DiscoveryStorage.assign_repo_to_component (storage.py lines 178-208) mutates
the cached AnalysisState: it appends the component name to the repository
record when that repository exists and the name is absent, appends the
repository name to the component record when that component exists and the
name is absent, and refreshes last_updated. The two updates touch disjoint
dicts, so they are modelled as parallel field updates. -/

/-- DiscoveryStorage.assign_repo_to_component, acting on the cached state. -/
def AnalysisState.assignRepoToComponent (s : AnalysisState) (repoName compName : String)
    (now : Nat) : AnalysisState :=
  let repos :=
    match lookupA s.repositories repoName with
    | some repo =>
      if compName ∈ repo.assigned_components then s.repositories
      else
        updateA s.repositories repoName fun r =>
          ({ r with assigned_components :=
              r.assigned_components ++ [compName] }).updateDiscoveryStatus
    | none => s.repositories
  let comps :=
    match lookupA s.components compName with
    | some comp =>
      if repoName ∈ comp.repositories then s.components
      else
        updateA s.components compName fun c =>
          { c with repositories := c.repositories ++ [repoName] }
    | none => s.components
  { s with repositories := repos, components := comps, last_updated := now }

/-- The bidirectional consistency invariant between repository and component
tables: a repository name is listed by a component exactly when that component
name is listed by the repository, both records existing. -/
def BidirOn (repos : List (String × RepoMetadata))
    (comps : List (String × ComponentData)) : Prop :=
  (∀ c comp, lookupA comps c = some comp →
    ∀ r ∈ comp.repositories,
      ∃ repo, lookupA repos r = some repo ∧ c ∈ repo.assigned_components) ∧
  (∀ r repo, lookupA repos r = some repo →
    ∀ c ∈ repo.assigned_components,
      ∃ comp, lookupA comps c = some comp ∧ r ∈ comp.repositories)

/-- The bidirectional assignment invariant of a whole state. -/
def Bidir (s : AnalysisState) : Prop := BidirOn s.repositories s.components

/-- States whose repositories list no components and whose components list no
repositories satisfy the invariant vacuously. -/
theorem bidirOn_of_no_links (repos : List (String × RepoMetadata))
    (comps : List (String × ComponentData))
    (hr : ∀ p ∈ repos, (p.2 : RepoMetadata).assigned_components = [])
    (hc : ∀ p ∈ comps, (p.2 : ComponentData).repositories = []) :
    BidirOn repos comps := by
  constructor
  · intro c comp h r hrm
    have := hc (c, comp) (lookupA_mem comps c comp h)
    simp only at this
    rw [this] at hrm
    cases hrm
  · intro r repo h c hcm
    have := hr (r, repo) (lookupA_mem repos r repo h)
    simp only at this
    rw [this] at hcm
    cases hcm

/-- Initial state of the C3 counterexample: one repository, no components. -/
def c3s0 : AnalysisState :=
  { repositories := [("repo-a", { name := "repo-a", path := "repo-a" })],
    base_repos_path := "/repos" }

/-- The C3 state after assigning repo-a to the nonexistent component comp-x. -/
def c3s1 : AnalysisState := c3s0.assignRepoToComponent "repo-a" "comp-x" 1

/-- The repository record of c3s1: comp-x appended, status recomputed. -/
def c3repo1 : RepoMetadata :=
  ({ name := "repo-a", path := "repo-a",
     assigned_components := ["comp-x"] } : RepoMetadata).updateDiscoveryStatus

/-- C3 counterexample: with arbitrary name arguments the single assignment
call does not preserve the bidirectional invariant. Starting from a
consistent state holding the repository repo-a and no components, assigning
repo-a to the nonexistent component comp-x appends comp-x to the repository
record while no component record lists repo-a, so the biconditional fails. -/
theorem c3_counterexample : Bidir c3s0 ∧ ¬ Bidir c3s1 := by
  constructor
  · exact bidirOn_of_no_links _ _ (by decide) (by decide)
  · intro hb
    obtain ⟨h1, h2⟩ := hb
    have hl : lookupA c3s1.repositories "repo-a" = some c3repo1 := by decide
    obtain ⟨comp, hcomp, hmem⟩ := h2 "repo-a" _ hl "comp-x" (by
      rw [c3repo1, updateDiscoveryStatus_assigned_components]
      exact List.mem_singleton.mpr rfl)
    have hcempty : c3s1.components = [] := by decide
    rw [hcempty] at hcomp
    simp [lookupA] at hcomp

/-- When both records exist and each already lists the other, the assignment
call only refreshes last_updated. -/
theorem assignRepoToComponent_eq_of_mem (s : AnalysisState) (rn cn : String) (now : Nat)
    (repo0 : RepoMetadata) (comp0 : ComponentData)
    (hrepo0 : lookupA s.repositories rn = some repo0)
    (hcomp0 : lookupA s.components cn = some comp0)
    (hmr : cn ∈ repo0.assigned_components) (hmc : rn ∈ comp0.repositories) :
    s.assignRepoToComponent rn cn now = { s with last_updated := now } := by
  unfold AnalysisState.assignRepoToComponent
  rw [hrepo0, hcomp0]
  simp [hmr, hmc]

/-- When both records exist and neither lists the other, the assignment call
appends on both sides and refreshes last_updated. -/
theorem assignRepoToComponent_eq_of_not_mem (s : AnalysisState) (rn cn : String) (now : Nat)
    (repo0 : RepoMetadata) (comp0 : ComponentData)
    (hrepo0 : lookupA s.repositories rn = some repo0)
    (hcomp0 : lookupA s.components cn = some comp0)
    (hmr : cn ∉ repo0.assigned_components) (hmc : rn ∉ comp0.repositories) :
    s.assignRepoToComponent rn cn now =
      { s with
        repositories := updateA s.repositories rn fun r =>
          ({ r with assigned_components := r.assigned_components ++ [cn] }).updateDiscoveryStatus,
        components := updateA s.components cn fun c =>
          { c with repositories := c.repositories ++ [rn] },
        last_updated := now } := by
  unfold AnalysisState.assignRepoToComponent
  rw [hrepo0, hcomp0]
  simp [hmr, hmc]

/-- One assignment call whose repository and component both exist preserves
the bidirectional invariant. -/
theorem assign_step_bidir (s : AnalysisState) (rn cn : String) (now : Nat)
    (h : Bidir s) (hr : (lookupA s.repositories rn).isSome)
    (hc : (lookupA s.components cn).isSome) :
    Bidir (s.assignRepoToComponent rn cn now) := by
  obtain ⟨repo0, hrepo0⟩ := Option.isSome_iff_exists.mp hr
  obtain ⟨comp0, hcomp0⟩ := Option.isSome_iff_exists.mp hc
  obtain ⟨h1, h2⟩ := h
  have hiff : cn ∈ repo0.assigned_components ↔ rn ∈ comp0.repositories := by
    constructor
    · intro hm
      obtain ⟨comp, hc', hm'⟩ := h2 rn repo0 hrepo0 cn hm
      rw [hcomp0] at hc'
      cases hc'
      exact hm'
    · intro hm
      obtain ⟨repo, hr', hm'⟩ := h1 cn comp0 hcomp0 rn hm
      rw [hrepo0] at hr'
      cases hr'
      exact hm'
  by_cases hmem : cn ∈ repo0.assigned_components
  · rw [assignRepoToComponent_eq_of_mem s rn cn now repo0 comp0 hrepo0 hcomp0 hmem
      (hiff.mp hmem)]
    exact ⟨h1, h2⟩
  · have hmc : rn ∉ comp0.repositories := fun hm => hmem (hiff.mpr hm)
    rw [assignRepoToComponent_eq_of_not_mem s rn cn now repo0 comp0 hrepo0 hcomp0 hmem hmc]
    constructor
    · intro c comp hlc r hrm
      simp only at hlc hrm ⊢
      by_cases hcn : cn = c
      · subst hcn
        rw [lookupA_updateA_self, hcomp0] at hlc
        simp only [Option.map_some'] at hlc
        cases hlc
        simp only at hrm
        rcases List.mem_append.mp hrm with hin | hsing
        · obtain ⟨repo, hlr, hcm⟩ := h1 cn comp0 hcomp0 r hin
          have hne : rn ≠ r := by
            intro hrr
            subst hrr
            rw [hrepo0] at hlr
            cases hlr
            exact hmem hcm
          refine ⟨repo, ?_, hcm⟩
          rw [lookupA_updateA_ne _ _ _ _ hne]
          exact hlr
        · have hreq : r = rn := List.mem_singleton.mp hsing
          subst hreq
          refine ⟨({ repo0 with assigned_components :=
              repo0.assigned_components ++ [cn] }).updateDiscoveryStatus, ?_, ?_⟩
          · rw [lookupA_updateA_self, hrepo0]
            rfl
          · rw [updateDiscoveryStatus_assigned_components]
            exact List.mem_append_right _ (List.mem_singleton.mpr rfl)
      · rw [lookupA_updateA_ne _ _ _ _ hcn] at hlc
        obtain ⟨repo, hlr, hcm⟩ := h1 c comp hlc r hrm
        by_cases hrn : rn = r
        · subst hrn
          rw [hrepo0] at hlr
          cases hlr
          refine ⟨({ repo0 with assigned_components :=
              repo0.assigned_components ++ [cn] }).updateDiscoveryStatus, ?_, ?_⟩
          · rw [lookupA_updateA_self, hrepo0]
            rfl
          · rw [updateDiscoveryStatus_assigned_components]
            exact List.mem_append_left _ hcm
        · refine ⟨repo, ?_, hcm⟩
          rw [lookupA_updateA_ne _ _ _ _ hrn]
          exact hlr
    · intro r repo hlr c hcm
      simp only at hlr hcm ⊢
      by_cases hrn : rn = r
      · subst hrn
        rw [lookupA_updateA_self, hrepo0] at hlr
        simp only [Option.map_some'] at hlr
        cases hlr
        rw [updateDiscoveryStatus_assigned_components] at hcm
        simp only at hcm
        rcases List.mem_append.mp hcm with hin | hsing
        · obtain ⟨comp, hlc, hm⟩ := h2 rn repo0 hrepo0 c hin
          have hne : cn ≠ c := by
            intro hcc
            subst hcc
            exact hmem hin
          refine ⟨comp, ?_, hm⟩
          rw [lookupA_updateA_ne _ _ _ _ hne]
          exact hlc
        · have hceq : c = cn := List.mem_singleton.mp hsing
          subst hceq
          refine ⟨{ comp0 with repositories := comp0.repositories ++ [rn] }, ?_, ?_⟩
          · rw [lookupA_updateA_self, hcomp0]
            rfl
          · exact List.mem_append_right _ (List.mem_singleton.mpr rfl)
      · rw [lookupA_updateA_ne _ _ _ _ hrn] at hlr
        obtain ⟨comp, hlc, hm⟩ := h2 r repo hlr c hcm
        by_cases hcn : cn = c
        · subst hcn
          rw [hcomp0] at hlc
          cases hlc
          refine ⟨{ comp0 with repositories := comp0.repositories ++ [rn] }, ?_, ?_⟩
          · rw [lookupA_updateA_self, hcomp0]
            rfl
          · exact List.mem_append_left _ hm
        · refine ⟨comp, ?_, hm⟩
          rw [lookupA_updateA_ne _ _ _ _ hcn]
          exact hlc

/-- One assignment call never adds or removes repository keys. -/
theorem assign_repo_keys (s : AnalysisState) (rn cn : String) (now : Nat) (r : String) :
    (lookupA (s.assignRepoToComponent rn cn now).repositories r).isSome =
      (lookupA s.repositories r).isSome := by
  unfold AnalysisState.assignRepoToComponent
  cases hl : lookupA s.repositories rn with
  | none => rfl
  | some repo =>
    by_cases hm : cn ∈ repo.assigned_components
    · simp [hm]
    · simp [hm, isSome_lookupA_updateA]

/-- One assignment call never adds or removes component keys. -/
theorem assign_comp_keys (s : AnalysisState) (rn cn : String) (now : Nat) (c : String) :
    (lookupA (s.assignRepoToComponent rn cn now).components c).isSome =
      (lookupA s.components c).isSome := by
  unfold AnalysisState.assignRepoToComponent
  cases hl : lookupA s.components cn with
  | none =>
    cases lookupA s.repositories rn with
    | none => rfl
    | some repo => by_cases hm : cn ∈ repo.assigned_components <;> simp [hm]
  | some comp =>
    by_cases hm : rn ∈ comp.repositories <;>
      cases lookupA s.repositories rn with
      | none => simp [hm, isSome_lookupA_updateA]
      | some repo =>
        by_cases hmr : cn ∈ repo.assigned_components <;>
          simp [hm, hmr, isSome_lookupA_updateA]

/-- Replay a list of (repo name, component name, timestamp) assignment calls
against a state, in order. -/
def applyAssignCalls (s : AnalysisState) (calls : List (String × String × Nat)) :
    AnalysisState :=
  calls.foldl (fun st c => st.assignRepoToComponent c.1 c.2.1 c.2.2) s

/-- Replaying calls that only name repositories and components existing in the
initial state preserves the bidirectional invariant. -/
theorem applyAssignCalls_bidir (calls : List (String × String × Nat)) (s : AnalysisState)
    (h : Bidir s)
    (hex : ∀ c ∈ calls, (lookupA s.repositories c.1).isSome ∧
      (lookupA s.components c.2.1).isSome) :
    Bidir (applyAssignCalls s calls) := by
  induction calls generalizing s with
  | nil => exact h
  | cons hd tl ih =>
    obtain ⟨rn, cn, now⟩ := hd
    have hhd := hex (rn, cn, now) (List.mem_cons_self _ _)
    have hstep := assign_step_bidir s rn cn now h hhd.1 hhd.2
    refine ih (s.assignRepoToComponent rn cn now) hstep ?_
    intro c hcmem
    have := hex c (List.mem_cons_of_mem _ hcmem)
    rw [assign_repo_keys, assign_comp_keys]
    exact this

/-- C3 amended: for every sequence of assign_repo_to_component calls in which
every call names a repository and a component that exist in the initial state,
starting from a state satisfying the bidirectional invariant, the state at
every point of the replay satisfies it: a repository name appears in a
component record exactly when that component name appears in the repository
record. Calls naming a missing repository or component can break the
invariant one-sidedly, as the counterexample shows. -/
theorem c3_assign_bidirectional_invariant (s : AnalysisState)
    (calls : List (String × String × Nat)) (h : Bidir s)
    (hex : ∀ c ∈ calls, (lookupA s.repositories c.1).isSome ∧
      (lookupA s.components c.2.1).isSome) :
    ∀ n, Bidir (applyAssignCalls s (calls.take n)) := by
  intro n
  refine applyAssignCalls_bidir (calls.take n) s h ?_
  intro c hcmem
  exact hex c (List.take_subset n calls hcmem)

/-- Initial state of the C3 witness: one repository and one component, not yet
linked. -/
def c3w0 : AnalysisState :=
  { repositories := [("repo-a", { name := "repo-a", path := "repo-a" })],
    components := [("comp-a", { name := "comp-a" })],
    base_repos_path := "/repos" }

/-- Witness for c3_assign_bidirectional_invariant: replaying one concrete
valid assignment keeps the invariant. -/
theorem c3_assign_bidirectional_invariant_witness :
    Bidir (applyAssignCalls c3w0 ([("repo-a", "comp-a", 5)].take 1)) :=
  c3_assign_bidirectional_invariant c3w0 [("repo-a", "comp-a", 5)]
    (bidirOn_of_no_links _ _ (by decide) (by decide)) (by decide) 1

/- ===== Claim C7: duplicate dependency rejection =====
DiscoveryMemoryPlugin.add_repository_dependency (plugin.py lines 819-933):
validates that both repositories exist and the type is non-empty, normalizes
the type by strip and lower, rejects a duplicate
(source, target, normalized type) triple, otherwise appends the record and
saves. Response data, suggestions and metadata carry no state; the model
keeps the success flag and the error text (message text abbreviated, with no
quote characters). -/

/-- ASCII model of the Python str.strip method: drop leading and trailing
whitespace characters. -/
def strStrip (s : String) : String :=
  ⟨((s.data.dropWhile Char.isWhitespace).reverse.dropWhile Char.isWhitespace).reverse⟩

/-- ASCII model of the Python str.lower method. -/
def strLower (s : String) : String :=
  ⟨s.data.map Char.toLower⟩

/-- PluginResponse (models.py), reduced to the fields the claims inspect. -/
structure PluginResponse where
  success : Bool
  error : Option String := none
deriving DecidableEq, Repr

/-- DiscoveryMemoryPlugin.add_repository_dependency acting on the plugin
state; returns the response and the resulting state. -/
def addRepositoryDependency (s : AnalysisState) (source target depType descr : String)
    (evidence : List String) (now : Nat) : PluginResponse × AnalysisState :=
  if (lookupA s.repositories source).isNone then
    ({ success := false, error := some "Source repository not found." }, s)
  else if (lookupA s.repositories target).isNone then
    ({ success := false, error := some "Target repository not found." }, s)
  else if depType = "" then
    ({ success := false, error := some "Dependency type must be a non-empty string" }, s)
  else
    let dt := strLower (strStrip depType)
    if s.dependency_records.any fun ex =>
        ex.source_repo == source && ex.target_repo == target && ex.dependency_type == dt then
      ({ success := false, error := some "Dependency already exists" }, s)
    else
      let dep : DependencyRecord :=
        { source_repo := source, target_repo := target, dependency_type := dt,
          description := descr, evidence := evidence, created_at := now }
      ({ success := true },
       { s with dependency_records := s.dependency_records ++ [dep], last_updated := now })

/-- C7: when the (source, target, strip-lower normalized type) triple is
already present in dependency_records, every path of
add_repository_dependency returns a failure response and leaves
dependency_records unchanged in length and content. -/
theorem c7_duplicate_dependency_rejected (s : AnalysisState)
    (source target depType descr : String) (evidence : List String) (now : Nat)
    (hdup : ∃ ex ∈ s.dependency_records, ex.source_repo = source ∧
      ex.target_repo = target ∧ ex.dependency_type = strLower (strStrip depType)) :
    (addRepositoryDependency s source target depType descr evidence now).1.success = false ∧
    (addRepositoryDependency s source target depType descr evidence now).2.dependency_records
      = s.dependency_records := by
  obtain ⟨ex, hmem, hs, ht, hty⟩ := hdup
  have hany : (s.dependency_records.any fun e =>
      e.source_repo == source && e.target_repo == target &&
        e.dependency_type == strLower (strStrip depType)) = true := by
    rw [List.any_eq_true]
    exact ⟨ex, hmem, by simp [hs, ht, hty]⟩
  unfold addRepositoryDependency
  by_cases h1 : (lookupA s.repositories source).isNone
  · simp [h1]
  · by_cases h2 : (lookupA s.repositories target).isNone
    · simp [h1, h2]
    · by_cases h3 : depType = ""
      · simp [h1, h2, h3]
      · simp [h1, h2, h3, hany]

/-- Plugin state of the C7 witness: two repositories and one recorded
api-type dependency between them. -/
def c7w0 : AnalysisState :=
  { repositories := [("alpha", { name := "alpha", path := "alpha" }),
                     ("beta", { name := "beta", path := "beta" })],
    dependency_records := [{ source_repo := "alpha", target_repo := "beta",
                             dependency_type := "api", description := "calls" }],
    base_repos_path := "/repos" }

/-- Witness for c7_duplicate_dependency_rejected: re-adding the alpha to beta
api dependency (spelled with surrounding spaces and capitals, which normalize
to the stored type) fails and leaves the records unchanged. -/
theorem c7_duplicate_dependency_rejected_witness :
    (addRepositoryDependency c7w0 "alpha" "beta" " API " "again" [] 9).1.success = false ∧
    (addRepositoryDependency c7w0 "alpha" "beta" " API " "again" [] 9).2.dependency_records
      = c7w0.dependency_records :=
  c7_duplicate_dependency_rejected c7w0 "alpha" "beta" " API " "again" [] 9
    ⟨{ source_repo := "alpha", target_repo := "beta", dependency_type := "api",
       description := "calls" }, by decide, rfl, rfl, by decide⟩

/- ===== Claim C6: circular dependency detection =====
DiscoveryMemoryPlugin._detect_circular_dependencies (plugin.py lines
1644-1680): builds an adjacency dict from dependency_records, then for every
directed edge whose unordered pair was not yet visited runs the recursive
has_path search from the edge target back to the edge source, reporting the
pair as a cycle when the search succeeds. has_path succeeds when start equals
the goal and the visited path already holds more than one node; it prunes
nodes already on the path. The Python recursion depth is bounded by the
number of distinct nodes, so a fuel of twice the record count plus two is
never exhausted. -/

/-- Neighbor list of a node in the adjacency dict. -/
def neighborsOf (g : List (String × List String)) (v : String) : List String :=
  (lookupA g v).getD []

/-- Add one edge to the adjacency dict, creating the source entry on first
sight and appending the target (graph building loop of the source). -/
def graphAdd (g : List (String × List String)) (s t : String) :
    List (String × List String) :=
  if (lookupA g s).isSome then updateA g s (fun l => l ++ [t]) else g ++ [(s, [t])]

/-- The adjacency dict of a record list. -/
def buildGraph (records : List DependencyRecord) : List (String × List String) :=
  records.foldl (fun g d => graphAdd g d.source_repo d.target_repo) []

/-- The recursive has_path of the source: succeed when start reaches the goal
with more than one node already on the path, prune revisits, else recurse
into the neighbors with start appended to the path. -/
def hasPath (g : List (String × List String)) :
    Nat → String → String → List String → Bool
  | 0, _, _, _ => false
  | fuel + 1, start, goal, path =>
    if start = goal ∧ path.length > 1 then true
    else if start ∈ path then false
    else (neighborsOf g start).any fun n => hasPath g fuel n goal (path ++ [start])

/-- DiscoveryMemoryPlugin._detect_circular_dependencies: visit every directed
edge once per unordered pair and report [source, target] when has_path finds
a way from the target back to the source. -/
def detectCircularDependencies (records : List DependencyRecord) : List (List String) :=
  let g := buildGraph records
  let fuel := 2 * records.length + 2
  (g.foldl
    (fun acc e =>
      e.2.foldl
        (fun acc2 t =>
          if (e.1, t) ∈ acc2.1 ∨ (t, e.1) ∈ acc2.1 then acc2
          else
            let visited := acc2.1 ++ [(e.1, t)]
            if hasPath g fuel t e.1 [] then (visited, acc2.2 ++ [[e.1, t]])
            else (visited, acc2.2))
        acc)
    (([] : List (String × String)), ([] : List (List String)))).2

/-- A dependency record with the given endpoints and the api type. -/
def apiDep (s t : String) : DependencyRecord :=
  { source_repo := s, target_repo := t, dependency_type := "api",
    description := "calls" }

/-- C6: the claim says the detector reports exactly the direct two-node
back-edge pairs and that longer cycles produce no reported pair. The code
does the opposite on both counts: for the mutual pair alpha to beta and beta
to alpha it reports nothing, because has_path starting from the edge target
can reach the source only over a walk of at least two edges whose interior
nodes are fresh, and the two-node cycle offers no such walk (the check that
the path length exceeds one fails at the direct back edge, and the only
continuation revisits a path node); while the three-node cycle alpha, beta,
gamma is reported, one pair per edge. The specification (scenario 3 of the
testable properties) expects the mutual pair to be reported exactly once, so
the code contradicts the documented intent. -/
theorem c6_cycle_detector_behavior :
    detectCircularDependencies [apiDep "alpha" "beta", apiDep "beta" "alpha"] = [] ∧
    detectCircularDependencies
        [apiDep "alpha" "beta", apiDep "beta" "gamma", apiDep "gamma" "alpha"] =
      [["alpha", "beta"], ["beta", "gamma"], ["gamma", "alpha"]] := by
  constructor
  · decide
  · decide

/- ===== Claim C4: parallel scan batch completeness =====
ParallelProcessor.process_repositories (helpers.py lines 30-84): submits one
job per input path, then collects results in completion order, keying the
result dict by the basename of the path; a raising job is replaced by a stub
RepoMetadata whose path is the input path relative to its grandparent and
whose insights carry the analysis_error text. Paths are modelled as nonempty
segment lists; the completion order of the thread pool is an arbitrary
permutation of the inputs; the scan function returns a result or an
exception text. -/

/-- Basename of a path (Python Path.name). -/
def pathName (p : List String) : String := p.getLast?.getD ""

/-- The stub path str(p.relative_to(p.parent.parent)): the last two segments
of the path (the whole path when it has fewer). -/
def stubRelPath (p : List String) : String :=
  String.intercalate "/" (p.drop (p.length - 2))

/-- The stub record built for a path whose scan raised with message e. -/
def errorStub (p : List String) (e : String) : RepoMetadata :=
  { name := pathName p, path := stubRelPath p, insights := [("analysis_error", e)] }

/-- The record merged for one completed path: the scan result, or the stub on
an exception. -/
def procResult (scan : List String → Except String RepoMetadata) (p : List String) :
    RepoMetadata :=
  match scan p with
  | .ok m => m
  | .error e => errorStub p e

/-- ParallelProcessor.process_repositories: fold the completion order into the
result dict keyed by basename. -/
def processRepositories (order : List (List String))
    (scan : List String → Except String RepoMetadata) : List (String × RepoMetadata) :=
  order.foldl (fun results p => insertA results (pathName p) (procResult scan p)) []

/-- A scan function always succeeding with a minimal record. -/
def c4okScan (p : List String) : Except String RepoMetadata :=
  .ok { name := pathName p, path := stubRelPath p }

/-- C4 counterexample: two distinct input paths sharing the basename repo
produce a single key, not two: the result dict is keyed by basename, so the
second completion overwrites the first and the claim that the mapping always
has exactly N keys fails. -/
theorem c4_counterexample :
    (processRepositories [["x", "repo"], ["y", "repo"]] c4okScan).length = 1 ∧
    ([["x", "repo"], ["y", "repo"]] : List (List String)).length = 2 := by
  constructor
  · decide
  · decide

/-- Inserting a fresh key appends the entry at the end. -/
theorem insertA_of_not_mem {α : Type} (l : List (String × α)) (k : String) (v : α)
    (h : k ∉ l.map Prod.fst) : insertA l k v = l ++ [(k, v)] := by
  induction l with
  | nil => rfl
  | cons hd tl ih =>
    obtain ⟨k', v'⟩ := hd
    simp only [List.map_cons, List.mem_cons] at h
    push_neg at h
    simp only [insertA, if_neg (Ne.symm h.1), List.cons_append]
    rw [ih h.2]

/-- With pairwise distinct basenames the processed dict is the completion
order, one entry per path. -/
theorem processRepositories_eq (order : List (List String))
    (scan : List String → Except String RepoMetadata)
    (h : (order.map pathName).Nodup) :
    processRepositories order scan = order.map fun p => (pathName p, procResult scan p) := by
  suffices haux : ∀ (rest : List (List String)) (acc : List (String × RepoMetadata)),
      (acc.map Prod.fst ++ rest.map pathName).Nodup →
      rest.foldl (fun results p => insertA results (pathName p) (procResult scan p)) acc =
        acc ++ rest.map fun p => (pathName p, procResult scan p) by
    have := haux order [] (by simpa using h)
    simpa [processRepositories] using this
  intro rest
  induction rest with
  | nil => intro acc _; simp
  | cons hd tl ih =>
    intro acc hnd
    have hfresh : pathName hd ∉ acc.map Prod.fst := by
      rw [List.nodup_append] at hnd
      intro hmem
      exact hnd.2.2 hmem (by simp)
    simp only [List.foldl_cons, insertA_of_not_mem acc (pathName hd) _ hfresh]
    have hnd2 : ((acc ++ [(pathName hd, procResult scan hd)]).map Prod.fst ++
        tl.map pathName).Nodup := by
      simp only [List.map_append, List.map_cons] at hnd ⊢
      simpa [List.append_assoc] using hnd
    rw [ih _ hnd2]
    simp

/-- Looking a basename up in the processed dict finds the entry of its path. -/
theorem lookupA_processRepositories (order : List (List String))
    (scan : List String → Except String RepoMetadata) (p : List String)
    (h : (order.map pathName).Nodup) (hp : p ∈ order) :
    lookupA (processRepositories order scan) (pathName p) = some (procResult scan p) := by
  rw [processRepositories_eq order scan h]
  induction order with
  | nil => exact absurd hp (by simp)
  | cons hd tl ih =>
    rw [List.map_cons, List.nodup_cons] at h
    rcases List.mem_cons.mp hp with heq | hmem
    · subst heq
      simp [lookupA]
    · have hne : pathName hd ≠ pathName p := by
        intro he
        exact h.1 (he ▸ List.mem_map_of_mem pathName hmem)
      simp only [List.map_cons, lookupA, if_neg hne]
      exact ih h.2 hmem

/-- C4 amended: for every list of N input paths with pairwise distinct
basenames and every scan function, including scan functions raising for some
paths, process_repositories returns a mapping with exactly N keys, one per
input path, in any completion order that is a permutation of the inputs;
each path whose scan raised is present under its basename with a stub record
carrying an analysis_error entry in its insights rather than being omitted.
Inputs with colliding basenames collapse onto one key, as the counterexample
shows. -/
theorem c4_scan_batch_completeness (paths order : List (List String))
    (scan : List String → Except String RepoMetadata)
    (hperm : order.Perm paths) (hnodup : (paths.map pathName).Nodup) :
    ((processRepositories order scan).map Prod.fst).Perm (paths.map pathName) ∧
    ∀ p ∈ paths, ∀ e, scan p = .error e →
      ∃ m, lookupA (processRepositories order scan) (pathName p) = some m ∧
        lookupA m.insights "analysis_error" = some e := by
  have hndo : (order.map pathName).Nodup := ((hperm.map pathName).nodup_iff).mpr hnodup
  constructor
  · rw [processRepositories_eq order scan hndo]
    have : ((order.map fun p => (pathName p, procResult scan p)).map Prod.fst) =
        order.map pathName := by
      simp [List.map_map]
    rw [this]
    exact hperm.map pathName
  · intro p hp e he
    refine ⟨errorStub p e, ?_, ?_⟩
    · have hl := lookupA_processRepositories order scan p hndo (hperm.mem_iff.mpr hp)
      rw [hl]
      simp [procResult, he]
    · simp [errorStub, lookupA]

/-- Input paths of the C4 witness. -/
def c4wPaths : List (List String) := [["x", "good"], ["x", "bad"]]

/-- Scan function of the C4 witness: raises on the bad path. -/
def c4wScan (p : List String) : Except String RepoMetadata :=
  if p = ["x", "bad"] then .error "boom" else .ok { name := pathName p, path := stubRelPath p }

/-- Witness for c4_scan_batch_completeness: two distinct basenames, one
failing scan, completion in input order. -/
theorem c4_scan_batch_completeness_witness :
    ((processRepositories c4wPaths c4wScan).map Prod.fst).Perm (c4wPaths.map pathName) ∧
    (∃ m, lookupA (processRepositories c4wPaths c4wScan) (pathName ["x", "bad"]) = some m ∧
      lookupA m.insights "analysis_error" = some "boom") :=
  ⟨(c4_scan_batch_completeness c4wPaths c4wPaths c4wScan (List.Perm.refl _) (by decide)).1,
   (c4_scan_batch_completeness c4wPaths c4wPaths c4wScan (List.Perm.refl _) (by decide)).2
     ["x", "bad"] (by decide) "boom" rfl⟩

/- ===== Durable state store: save (storage.py lines 92-132) =====
The save path is modelled at the byte level: file contents are strings; the
serialized content is a rendering of every field of the state in declaration
order, standing for the json.dump output of _save_to_file (JSON punctuation
is abstracted; the content is a function of the whole state). Exceptions are
injected at the three file operations of the sequence: writing the temporary
file (a prefix reaches disk before the write raises), copying the primary to
the backup (shutil.copy2 truncates the destination and copies sequentially,
so a failure mid-copy leaves a prefix of the primary in the backup), and the
rename (os.rename is atomic on one filesystem, so a failure leaves the
primary untouched). The except handler removes the temporary file when it
exists and returns False. -/

/-- Quote a string for the rendered content. -/
def qs (s : String) : String := "\"" ++ s ++ "\""

/-- Render a list for the rendered content. -/
def jsonList (xs : List String) : String := "[" ++ String.intercalate ", " xs ++ "]"

/-- Render an object for the rendered content. -/
def jsonObj (fields : List (String × String)) : String :=
  "\x7b" ++ String.intercalate ", " (fields.map fun f => qs f.1 ++ ": " ++ f.2) ++ "\x7d"

/-- Render an optional timestamp (isoformat of the datetime, null if absent). -/
def jsonOptTime : Option Nat → String
  | none => "null"
  | some n => qs (toString n)

/-- Render a string-valued map. -/
def jsonStrMap (l : List (String × String)) : String :=
  jsonObj (l.map fun kv => (kv.1, qs kv.2))

/-- Render the deep_analysis field. -/
def serializeDeepAnalysis : Option DeepAnalysis → String
  | none => "null"
  | some d =>
    jsonObj [("markdown_summary", qs d.markdown_summary),
             ("deep_insights", jsonStrMap d.deep_insights),
             ("analysis_timestamp", qs (toString d.analysis_timestamp))]

/-- Render one repository record. -/
def serializeRepoMetadata (r : RepoMetadata) : String :=
  jsonObj [("name", qs r.name), ("path", qs r.path),
           ("discovery_phase_status", qs r.discovery_phase_status),
           ("total_files", toString r.total_files),
           ("file_counts", jsonObj (r.file_counts.map fun kv => (kv.1, toString kv.2))),
           ("total_lines", toString r.total_lines),
           ("technology_stack",
             jsonObj [("frameworks", jsonList (r.technology_stack.frameworks.map qs))]),
           ("has_readme", cond r.has_readme "true" "false"),
           ("config_files", jsonList (r.config_files.map qs)),
           ("insights", jsonStrMap r.insights),
           ("assigned_components", jsonList (r.assigned_components.map qs)),
           ("deep_analysis", serializeDeepAnalysis r.deep_analysis)]

/-- Render one component record. -/
def serializeComponentData (c : ComponentData) : String :=
  jsonObj [("name", qs c.name), ("purpose", qs c.purpose),
           ("rationale", qs c.rationale),
           ("repositories", jsonList (c.repositories.map qs)),
           ("created_at", qs (toString c.created_at))]

/-- Render one dependency record. -/
def serializeDependencyRecord (d : DependencyRecord) : String :=
  jsonObj [("source_repo", qs d.source_repo), ("target_repo", qs d.target_repo),
           ("dependency_type", qs d.dependency_type),
           ("description", qs d.description),
           ("evidence", jsonList (d.evidence.map qs)),
           ("created_at", qs (toString d.created_at))]

/-- The file content written by _save_to_file for a state: the top-level JSON
shape of the external interface section, every field included. -/
def serializeState (s : AnalysisState) : String :=
  jsonObj [("repositories",
             jsonObj (s.repositories.map fun kv => (kv.1, serializeRepoMetadata kv.2))),
           ("components",
             jsonObj (s.components.map fun kv => (kv.1, serializeComponentData kv.2))),
           ("dependency_records",
             jsonList (s.dependency_records.map serializeDependencyRecord)),
           ("total_repositories", toString s.total_repositories),
           ("repositories_with_insights", toString s.repositories_with_insights),
           ("analysis_started", jsonOptTime s.analysis_started),
           ("analysis_completed", jsonOptTime s.analysis_completed),
           ("last_updated", qs (toString s.last_updated)),
           ("base_repos_path", qs s.base_repos_path)]

/-- The two module-level mutable fields of DiscoveryStorage: the in-memory
cached state and the dirty flag. -/
structure StorageCache where
  state_cache : Option AnalysisState
  cache_dirty : Bool
deriving DecidableEq, Repr

/-- The three files of the store, as optional byte strings. -/
structure StorageFiles where
  temp : Option String
  primary : Option String
  backup : Option String
deriving DecidableEq, Repr

/-- Where an exception is injected into the save sequence: nowhere, while
writing the temporary file (after a prefix of the given length reached
disk), while copying the primary to the backup (after a prefix of the given
length reached the backup), or at the rename. -/
inductive SaveFailure where
  | noFailure : SaveFailure
  | duringWriteTemp : Nat → SaveFailure
  | duringCopyBackup : Nat → SaveFailure
  | duringMove : SaveFailure
deriving DecidableEq, Repr

/-- Outcome of one save_state call: the returned boolean, the store fields,
the files, and the state object (mutated in place by the call). -/
structure SaveResult where
  ok : Bool
  store : StorageCache
  files : StorageFiles
  state : AnalysisState
deriving DecidableEq, Repr

/-- DiscoveryStorage.save_state: no-op when nothing changed and force is not
set; otherwise refresh last_updated on the passed state, write the temp file,
copy the primary to the backup when a primary exists, atomically rename the
temp file onto the primary, and update the cache fields; on an exception
remove the temp file and return false. -/
def saveStateRun (store : StorageCache) (fs : StorageFiles) (state : AnalysisState)
    (force : Bool) (now : Nat) (failAt : SaveFailure) : SaveResult :=
  if force = false ∧ store.cache_dirty = false ∧ store.state_cache = some state then
    { ok := true, store := store, files := fs, state := state }
  else
    let state' := { state with last_updated := now }
    let content := serializeState state'
    match failAt with
    | .duringWriteTemp _ =>
      { ok := false, store := store, files := { fs with temp := none }, state := state' }
    | .duringCopyBackup k =>
      match fs.primary with
      | some p =>
        { ok := false, store := store,
          files := { fs with temp := none, backup := some (p.take k) }, state := state' }
      | none =>
        { ok := true,
          store := { state_cache := some state', cache_dirty := false },
          files := { fs with temp := none, primary := some content }, state := state' }
    | .duringMove =>
      { ok := false, store := store,
        files := { fs with
                   temp := none,
                   backup := (match fs.primary with | some p => some p | none => fs.backup) },
        state := state' }
    | .noFailure =>
      { ok := true,
        store := { state_cache := some state', cache_dirty := false },
        files := { temp := none,
                   primary := some content,
                   backup := (match fs.primary with | some p => some p | none => fs.backup) },
        state := state' }

/-- State of the C1 counterexample. -/
def c1State : AnalysisState := { base_repos_path := "/repos" }

/-- Files of the C1 counterexample: a four-byte primary and a two-byte
backup holding the previous snapshot. -/
def c1Files : StorageFiles := { temp := none, primary := some "abcd", backup := some "zz" }

/-- Store fields of the C1 counterexample: dirty cache, nothing cached. -/
def c1Store : StorageCache := { state_cache := none, cache_dirty := true }

/-- C1 counterexample: an exception during the copy of the primary to the
backup (after two of the four primary bytes were copied) makes save_state
return false with the temp file removed and the primary intact, but the
backup now holds the two-byte prefix ab: neither its previous content zz nor
a faithful copy of the primary, so the part of the claim stating that the
backup is uncorrupted at every failure point is false. -/
theorem c1_counterexample :
    (saveStateRun c1Store c1Files c1State false 7 (.duringCopyBackup 2)).ok = false ∧
    (saveStateRun c1Store c1Files c1State false 7 (.duringCopyBackup 2)).files.temp = none ∧
    (saveStateRun c1Store c1Files c1State false 7
      (.duringCopyBackup 2)).files.primary = c1Files.primary ∧
    (saveStateRun c1Store c1Files c1State false 7
      (.duringCopyBackup 2)).files.backup ≠ c1Files.backup ∧
    (saveStateRun c1Store c1Files c1State false 7
      (.duringCopyBackup 2)).files.backup ≠ c1Files.primary := by
  refine ⟨rfl, rfl, rfl, ?_, ?_⟩ <;> decide

/-- C1 amended: whenever an exception actually occurs inside save_state (the
no-op path is not taken; the injected point is reached, a backup-copy
failure requiring an existing primary), save_state returns false, the
temporary file is removed, and the primary content is byte-identical to
before the call. The backup is byte-identical for a failure while writing
the temporary file; a failure at the rename leaves the backup a full copy of
the primary when a primary exists (the copy already completed) and untouched
otherwise; but a failure during the backup copy leaves the backup holding
a prefix of the primary, losing the previous backup content. -/
theorem c1_save_failure_atomicity (store : StorageCache) (fs : StorageFiles)
    (state : AnalysisState) (force : Bool) (now : Nat) (failAt : SaveFailure)
    (r : SaveResult) (hr : saveStateRun store fs state force now failAt = r)
    (hnoop : ¬(force = false ∧ store.cache_dirty = false ∧ store.state_cache = some state))
    (hfa : failAt ≠ SaveFailure.noFailure)
    (hcp : ∀ k, failAt = SaveFailure.duringCopyBackup k → fs.primary ≠ none) :
    r.ok = false ∧ r.files.temp = none ∧ r.files.primary = fs.primary ∧
    (∀ k, failAt = SaveFailure.duringWriteTemp k → r.files.backup = fs.backup) ∧
    (failAt = SaveFailure.duringMove →
      (∀ p, fs.primary = some p → r.files.backup = some p) ∧
      (fs.primary = none → r.files.backup = fs.backup)) ∧
    (∀ k, failAt = SaveFailure.duringCopyBackup k →
      ∃ p, fs.primary = some p ∧ r.files.backup = some (p.take k)) := by
  subst hr
  unfold saveStateRun
  rw [if_neg hnoop]
  cases failAt with
  | noFailure => exact absurd rfl hfa
  | duringWriteTemp k => simp
  | duringMove =>
    cases hp : fs.primary with
    | none => simp
    | some p => simp
  | duringCopyBackup k =>
    cases hp : fs.primary with
    | none => exact absurd hp (hcp k rfl)
    | some p => simp

/-- Witness for c1_save_failure_atomicity: a failure while writing the
temporary file on the concrete C1 store. -/
theorem c1_save_failure_atomicity_witness :
    (saveStateRun c1Store c1Files c1State false 7 (.duringWriteTemp 1)).ok = false ∧
    (saveStateRun c1Store c1Files c1State false 7 (.duringWriteTemp 1)).files.temp = none ∧
    (saveStateRun c1Store c1Files c1State false 7
      (.duringWriteTemp 1)).files.primary = c1Files.primary ∧
    (∀ k, SaveFailure.duringWriteTemp 1 = SaveFailure.duringWriteTemp k →
      (saveStateRun c1Store c1Files c1State false 7
        (.duringWriteTemp 1)).files.backup = c1Files.backup) ∧
    (SaveFailure.duringWriteTemp 1 = SaveFailure.duringMove →
      (∀ p, c1Files.primary = some p →
        (saveStateRun c1Store c1Files c1State false 7
          (.duringWriteTemp 1)).files.backup = some p) ∧
      (c1Files.primary = none →
        (saveStateRun c1Store c1Files c1State false 7
          (.duringWriteTemp 1)).files.backup = c1Files.backup)) ∧
    (∀ k, SaveFailure.duringWriteTemp 1 = SaveFailure.duringCopyBackup k →
      ∃ p, c1Files.primary = some p ∧
        (saveStateRun c1Store c1Files c1State false 7
          (.duringWriteTemp 1)).files.backup = some (p.take k)) :=
  c1_save_failure_atomicity c1Store c1Files c1State false 7 (.duringWriteTemp 1) _ rfl
    (by decide) (by decide) (fun k h => nomatch h)

/-- C9: whenever save_state fails and returns false, the state object passed
in has already been mutated: last_updated now holds the time of the failed
attempt while every other field is unchanged (the record update touches only
last_updated), and the cached-state reference and dirty flag of the store
are exactly as before the call. -/
theorem c9_failed_save_frame (store : StorageCache) (fs : StorageFiles)
    (state : AnalysisState) (force : Bool) (now : Nat) (failAt : SaveFailure)
    (r : SaveResult) (hr : saveStateRun store fs state force now failAt = r)
    (hfail : r.ok = false) :
    r.state = { state with last_updated := now } ∧ r.store = store := by
  subst hr
  unfold saveStateRun at hfail ⊢
  by_cases hnoop : force = false ∧ store.cache_dirty = false ∧ store.state_cache = some state
  · rw [if_pos hnoop] at hfail
    exact absurd hfail (by simp)
  · rw [if_neg hnoop] at hfail ⊢
    cases failAt with
    | noFailure => exact absurd hfail (by simp)
    | duringWriteTemp k => exact ⟨rfl, rfl⟩
    | duringMove => exact ⟨rfl, rfl⟩
    | duringCopyBackup k =>
      cases hp : fs.primary with
      | none =>
        rw [hp] at hfail
        exact absurd hfail (by simp)
      | some p => exact ⟨rfl, rfl⟩

/-- Witness for c9_failed_save_frame: the failed copy-to-backup save of the
C1 files advances last_updated and leaves the store fields alone. -/
theorem c9_failed_save_frame_witness :
    (saveStateRun c1Store c1Files c1State false 7 (.duringCopyBackup 2)).state =
      { c1State with last_updated := 7 } ∧
    (saveStateRun c1Store c1Files c1State false 7 (.duringCopyBackup 2)).store = c1Store :=
  c9_failed_save_frame c1Store c1Files c1State false 7 (.duringCopyBackup 2) _ rfl rfl

/- ===== Durable state store: load (storage.py lines 44-90) =====
The load path is modelled at the level of deserialization outcomes: each of
the two files is absent, or present and yielding either a parsed state or a
parse or validation exception when _load_from_file opens it. The run also
records whether the backup file was consulted (its existence checked and the
file opened), which the control flow of the source determines. -/

/-- Deserialization outcome of one cache file: absent, unparseable with an
error text, or a parsed state. -/
def FileLoad : Type := Option (Except String AnalysisState)

/-- The two on-disk inputs of load_state. -/
structure LoadFiles where
  primary : FileLoad
  backup : FileLoad

/-- Outcome of one load_state call: the returned state, the store fields,
and whether the backup file was consulted. -/
structure LoadResult where
  state : AnalysisState
  store : StorageCache
  backupRead : Bool

/-- The fresh empty AnalysisState(base_repos_path=...) with every pydantic
default, created at the given time. -/
def freshState (basePath : String) (now : Nat) : AnalysisState :=
  { base_repos_path := basePath, last_updated := now }

/-- DiscoveryStorage.load_state: return the cached state when one exists;
else parse the primary when present, falling back to the backup on a parse
error, and on success overwrite base_repos_path with the caller path and
refresh last_updated; when nothing loads, cache and return a fresh state
and mark the cache dirty. -/
def loadStateRun (store : StorageCache) (files : LoadFiles) (basePath : String)
    (now : Nat) : LoadResult :=
  match store.state_cache with
  | some st => { state := st, store := store, backupRead := false }
  | none =>
    match files.primary with
    | some (.ok st) =>
      let st' := { st with base_repos_path := basePath, last_updated := now }
      { state := st', store := { store with state_cache := some st' }, backupRead := false }
    | some (.error _) =>
      match files.backup with
      | some (.ok st) =>
        let st' := { st with base_repos_path := basePath, last_updated := now }
        { state := st', store := { store with state_cache := some st' }, backupRead := true }
      | some (.error _) =>
        let st := freshState basePath now
        { state := st, store := { state_cache := some st, cache_dirty := true },
          backupRead := true }
      | none =>
        let st := freshState basePath now
        { state := st, store := { state_cache := some st, cache_dirty := true },
          backupRead := false }
    | none =>
      let st := freshState basePath now
      { state := st, store := { state_cache := some st, cache_dirty := true },
        backupRead := false }

/-- C2: load_state is total (the model returns on every input, so loading
never raises to the caller) and, when no in-memory cached state exists: a
primary that parses is returned with base_repos_path overwritten by the
caller path; a primary that fails to parse or validate causes the backup to
be consulted, and a parsing backup is returned with base_repos_path
overwritten; when the primary fails and the backup is absent or also fails,
the fresh empty state rooted at base_path is returned. -/
theorem c2_load_fallback (store : StorageCache) (files : LoadFiles) (basePath : String)
    (now : Nat) (hcache : store.state_cache = none) :
    (∀ st, files.primary = some (.ok st) →
      (loadStateRun store files basePath now).state =
        { st with base_repos_path := basePath, last_updated := now }) ∧
    (∀ e st, files.primary = some (.error e) → files.backup = some (.ok st) →
      (loadStateRun store files basePath now).backupRead = true ∧
      (loadStateRun store files basePath now).state =
        { st with base_repos_path := basePath, last_updated := now }) ∧
    (∀ e, files.primary = some (.error e) →
      (files.backup = none ∨ (∃ e2, files.backup = some (.error e2))) →
      (loadStateRun store files basePath now).state = freshState basePath now) ∧
    (∀ st, (files.primary = some (.ok st) ∨
        ((∃ e, files.primary = some (.error e)) ∧ files.backup = some (.ok st))) →
      (loadStateRun store files basePath now).state.base_repos_path = basePath) := by
  refine ⟨?_, ?_, ?_, ?_⟩
  · intro st hp
    simp [loadStateRun, hcache, hp]
  · intro e st hp hb
    simp [loadStateRun, hcache, hp, hb]
  · intro e hp hb
    rcases hb with hb | ⟨e2, hb⟩ <;> simp [loadStateRun, hcache, hp, hb]
  · intro st hst
    rcases hst with hp | ⟨⟨e, hp⟩, hb⟩
    · simp [loadStateRun, hcache, hp]
    · simp [loadStateRun, hcache, hp, hb]

/-- Parsed state used by the load witnesses, rooted elsewhere than the
caller-supplied path. -/
def c2Disk : AnalysisState := { base_repos_path := "/old", last_updated := 3 }

/-- Witness for c2_load_fallback: an unparseable primary next to a valid
backup on an empty store. -/
theorem c2_load_fallback_witness :
    (∀ st, (some (.error "bad json") : FileLoad) = some (.ok st) →
      (loadStateRun { state_cache := none, cache_dirty := false }
        { primary := some (.error "bad json"), backup := some (.ok c2Disk) }
        "/repos" 9).state = { st with base_repos_path := "/repos", last_updated := 9 }) ∧
    (∀ e st, (some (.error "bad json") : FileLoad) = some (.error e) →
      (some (.ok c2Disk) : FileLoad) = some (.ok st) →
      (loadStateRun { state_cache := none, cache_dirty := false }
        { primary := some (.error "bad json"), backup := some (.ok c2Disk) }
        "/repos" 9).backupRead = true ∧
      (loadStateRun { state_cache := none, cache_dirty := false }
        { primary := some (.error "bad json"), backup := some (.ok c2Disk) }
        "/repos" 9).state = { st with base_repos_path := "/repos", last_updated := 9 }) ∧
    (∀ e, (some (.error "bad json") : FileLoad) = some (.error e) →
      ((some (.ok c2Disk) : FileLoad) = none ∨
        (∃ e2, (some (.ok c2Disk) : FileLoad) = some (.error e2))) →
      (loadStateRun { state_cache := none, cache_dirty := false }
        { primary := some (.error "bad json"), backup := some (.ok c2Disk) }
        "/repos" 9).state = freshState "/repos" 9) ∧
    (∀ st, ((some (.error "bad json") : FileLoad) = some (.ok st) ∨
        ((∃ e, (some (.error "bad json") : FileLoad) = some (.error e)) ∧
          (some (.ok c2Disk) : FileLoad) = some (.ok st))) →
      (loadStateRun { state_cache := none, cache_dirty := false }
        { primary := some (.error "bad json"), backup := some (.ok c2Disk) }
        "/repos" 9).state.base_repos_path = "/repos") :=
  c2_load_fallback { state_cache := none, cache_dirty := false }
    { primary := some (.error "bad json"), backup := some (.ok c2Disk) } "/repos" 9 rfl

/-- C10: when no in-memory cached state exists and the primary cache file is
absent, load_state returns the fresh empty state without consulting the
backup file, whatever the backup holds, even a valid parsed state. -/
theorem c10_missing_primary_skips_backup (store : StorageCache) (files : LoadFiles)
    (basePath : String) (now : Nat)
    (hcache : store.state_cache = none) (hprimary : files.primary = none) :
    (loadStateRun store files basePath now).state = freshState basePath now ∧
    (loadStateRun store files basePath now).backupRead = false := by
  simp [loadStateRun, hcache, hprimary]

/-- Witness for c10_missing_primary_skips_backup: no primary file while a
valid backup exists. -/
theorem c10_missing_primary_skips_backup_witness :
    (loadStateRun { state_cache := none, cache_dirty := false }
      { primary := none, backup := some (.ok c2Disk) } "/repos" 9).state =
        freshState "/repos" 9 ∧
    (loadStateRun { state_cache := none, cache_dirty := false }
      { primary := none, backup := some (.ok c2Disk) } "/repos" 9).backupRead = false :=
  c10_missing_primary_skips_backup { state_cache := none, cache_dirty := false }
    { primary := none, backup := some (.ok c2Disk) } "/repos" 9 rfl rfl

/- ===== Claim C8: the analyzer entry point (analyzer.py lines 49-110) =====
RepositoryAnalyzer.analyze_repository computes
str(repo_path.relative_to(self.base_path)) before entering its try block:
Path.relative_to raises ValueError when the base is not a prefix of the
path, and that exception is not caught. Inside the try block the code
assigns metadata.technology_stack.primary_languages and
metadata.repository_type, and in the except handler metadata.
analysis_confidence - none of these fields is declared by RepoMetadata or
TechnologyStack in models.py, and pydantic raises on assignment to an
undeclared field, so the handler itself raises after recording the
analysis_error insight. In addition the module cannot even be imported
against models.py as present, because it imports RepositoryType and
LANGUAGE_MAPPINGS, which models.py does not define. The model mirrors the
raising control flow: paths are segment lists, relative_to is the prefix
check, and the body is the raise the stale field assignments produce. -/

/-- Path.relative_to: the suffix of p after base, or the ValueError the
source leaves uncaught when base is not a prefix of p. -/
def relativeTo (p base : List String) : Except String (List String) :=
  if base <+: p then .ok (p.drop base.length)
  else .error "ValueError: path is not relative to the base path"

/-- RepositoryAnalyzer.analyze_repository against models.py as present in the
repository: relative_to runs outside the try block and propagates its
ValueError; otherwise the try block raises at the first assignment to an
undeclared pydantic field (technology_stack.primary_languages), the except
handler records the analysis_error insight and then raises itself at
metadata.analysis_confidence, another undeclared field, so no call returns
a RepoMetadata. -/
def analyzeRepository (basePath repoPath : List String) : Except String RepoMetadata :=
  match relativeTo repoPath basePath with
  | .error e => .error e
  | .ok _ => .error "ValueError: RepoMetadata object has no field analysis_confidence"

/-- C8: the claim says analyze_repository never raises and returns a partial
record carrying an analysis_error insight on any internal error. The code
raises instead: for a path outside the base directory the uncaught
relative_to ValueError propagates, and for a path under the base the except
handler raises while assigning the undeclared analysis_confidence field, so
the documented contract is not met on any input. -/
theorem c8_analyze_repository_raises :
    (∃ e, analyzeRepository ["repos"] ["other", "x"] = .error e) ∧
    (∃ e, analyzeRepository ["repos"] ["repos", "legacy-app"] = .error e) :=
  ⟨⟨"ValueError: path is not relative to the base path", rfl⟩,
   ⟨"ValueError: RepoMetadata object has no field analysis_confidence", rfl⟩⟩
